import Mathlib

/-!
# Shallow embedding of the x402 VRF-NFT example

This file embeds the payment-gated resource server
(`src/example/vrfnft/vrf-resource-server.ts`) and the consuming
randomness contract
(`src/examples/typescript/clients/chainlink-vrf-nft/contract/VRFNFT.sol`)
as pure Lean functions, and proves properties of the request-handling
flow (challenge, verification, action trigger, settlement) and of the
asynchronous fulfillment handler.

External effects (base64/JSON decoding of the payment header, the
facilitator `/verify` and `/settle` HTTP calls, and the mint
transaction submission) are modelled as an environment record carrying
the outcome each external call would produce for this request; a
thrown exception is an `Except.error`.  The handler returns, besides
the HTTP response, the ordered list of external calls it performed, so
ordering invariants (verify before settle, no settle after a failed
trigger) are statements about that trace.
-/

namespace X402

/-- Ethereum-style address, kept as a string as in the TypeScript source. -/
abbrev Address := String

/-- `authorization` object inside the `ExactEvmPayload` of the X-PAYMENT
header (vrf-resource-server.ts lines 29-37).  The TypeScript field `from` is
a Lean keyword and is embedded as `from_` (likewise `to` as `to_`); the empty string models a missing
or empty (JavaScript-falsy) `from` field. -/
structure Authorization where
  from_ : Address
  to_ : Address
  value : String
  validAfter : String
  validBefore : String
  nonce : String
  version : String
  deriving DecidableEq

/-- `ExactEvmPayload` (vrf-resource-server.ts lines 27-38). -/
structure ExactEvmPayload where
  signature : String
  authorization : Authorization
  deriving DecidableEq

/-- Decoded `XPaymentHeader` wire envelope (vrf-resource-server.ts lines 39-45). -/
structure XPaymentHeader where
  x402Version : Nat
  scheme : String
  networkId : String
  payload : ExactEvmPayload
  resource : String
  deriving DecidableEq

/-- `PaymentDetails` — the server-declared payment terms
(vrf-resource-server.ts lines 14-26).  `outputSchema` and `extra` are
always `null` in the source and are embedded as such in the JSON view. -/
structure PaymentDetails where
  scheme : String
  networkId : String
  maxAmountRequired : String
  resource : String
  description : String
  mimeType : String
  payToAddress : String
  requiredDeadlineSeconds : Nat
  usdcAddress : String
  deriving DecidableEq

/-- Constants from vrf-resource-server.ts lines 66-74.  `NETWORK_ID` is
`baseSepolia.id.toString()` and Base Sepolia's chain id is 84532. -/
def PORT : Nat := 4023

def SCHEME : String := "exact"

def NETWORK_ID : String := "84532"

def REQUIRED_USDC_PAYMENT : String := "50000"

def PAYMENT_RECIPIENT_ADDRESS : Address := "0x87002564F1C7b8F51e96CA7D545e43402BF0b4Ab"

def USDC_CONTRACT_ADDRESS : Address := "0x036CbD53842c5426634e7929541eC2318f3dCF7e"

def NFT_CONTRACT_ADDRESS : Address := "0xcD8841f9a8Dbc483386fD80ab6E9FD9656Da39A2"

/-- The `paymentDetailsRequired` object sent in every 402 response
(vrf-resource-server.ts lines 90-102). -/
def paymentDetailsRequired : PaymentDetails :=
  { scheme := SCHEME
    networkId := NETWORK_ID
    maxAmountRequired := REQUIRED_USDC_PAYMENT
    resource := "http://localhost:4023/request-mint"
    description := "Request to mint a VRF NFT"
    mimeType := "application/json"
    payToAddress := PAYMENT_RECIPIENT_ADDRESS
    requiredDeadlineSeconds := 60
    usdcAddress := USDC_CONTRACT_ADDRESS }

/-- A JSON value, as produced by Hono's `c.json`. -/
inductive Json where
  | str : String → Json
  | num : Nat → Json
  | bool : Bool → Json
  | null : Json
  | obj : List (String × Json) → Json

/-- The keys of a JSON object (empty for non-objects). -/
def Json.keys : Json → List String
  | .obj fields => fields.map Prod.fst
  | _ => []

/-- JSON serialization of the payment details, as embedded in 402 bodies;
`outputSchema` and `extra` are the literal `null`s of the source object. -/
def PaymentDetails.toJson (d : PaymentDetails) : Json :=
  .obj [("scheme", .str d.scheme), ("networkId", .str d.networkId),
        ("maxAmountRequired", .str d.maxAmountRequired),
        ("resource", .str d.resource), ("description", .str d.description),
        ("mimeType", .str d.mimeType), ("payToAddress", .str d.payToAddress),
        ("requiredDeadlineSeconds", .num d.requiredDeadlineSeconds),
        ("usdcAddress", .str d.usdcAddress),
        ("outputSchema", .null), ("extra", .null)]

/-- Result of the facilitator `POST /verify` call
(vrf-resource-server.ts line 140). -/
structure VerificationResult where
  isValid : Bool
  invalidReason : Option String
  deriving DecidableEq

/-- Result of the facilitator `POST /settle` call
(vrf-resource-server.ts line 170). -/
structure SettlementResult where
  success : Bool
  error : Option String
  txHash : Option String
  deriving DecidableEq

/-- Outcomes of the external effects for one inbound request.
`decodeHeader` is the outcome of `JSON.parse(Buffer.from(hdr,
'base64'))` on the presented header (`Except.error` models a thrown
decode/parse exception); `verifyCall` and `settleCall` are the
facilitator HTTP calls (`Except.error` models a transport error or
non-2xx response, which axios throws); `mintCall` is
`writeContract` submitting the mint transaction, returning a tx hash. -/
structure Env where
  decodeHeader : Except String XPaymentHeader
  verifyCall : Except String VerificationResult
  mintCall : Except String String
  settleCall : Except String SettlementResult

/-- External calls the handler can make, in the order it makes them. -/
inductive Call where
  | verify
  | mint
  | settle
  deriving DecidableEq

/-- An HTTP response: status code and JSON body. -/
structure HttpResponse where
  status : Nat
  body : Json

/-- The "basic validation" of the decoded header
(vrf-resource-server.ts line 125): wrong scheme, wrong network id, or a
falsy `payload.authorization.from` make the decode block throw. -/
def basicValidationFails (ph : XPaymentHeader) : Bool :=
  ph.scheme != SCHEME || ph.networkId != NETWORK_ID ||
    ph.payload.authorization.from_ == ""

/-- 402 body for a request with no payment header
(vrf-resource-server.ts line 116). -/
def challengeBody : Json :=
  .obj [("paymentDetails", paymentDetailsRequired.toJson),
        ("error", .str "Payment required")]

/-- 400 body for a malformed header (vrf-resource-server.ts line 130);
`details` carries the thrown error's message. -/
def headerFormatBody (details : String) : Json :=
  .obj [("error", .str "Invalid payment header format."),
        ("details", .str details)]

/-- 402 body for a verification failure (vrf-resource-server.ts line 144). -/
def verifyFailedBody (invalidReason : Option String) : Json :=
  .obj [("paymentDetails", paymentDetailsRequired.toJson),
        ("error", .str "Payment verification failed."),
        ("details", .str (invalidReason.getD "Unknown"))]

/-- 500 body when the facilitator `/verify` call itself throws
(vrf-resource-server.ts line 148). -/
def verifyTransportFailureBody : Json :=
  .obj [("error", .str "Facilitator verification call failed.")]

/-- 500 body when the mint transaction submission throws
(vrf-resource-server.ts line 166). -/
def mintFailedBody (details : String) : Json :=
  .obj [("error", .str "Failed to initiate NFT minting."),
        ("details", .str details)]

/-- 200 body for a successful request (vrf-resource-server.ts lines
189-192): only `message` and `nftMintTxHash`; the settlement result is
not part of the body. -/
def successBody (mintTxHash : String) : Json :=
  .obj [("message", .str "NFT mint request initiated successfully."),
        ("nftMintTxHash", .str mintTxHash)]

/-- The `POST /request-mint` handler (vrf-resource-server.ts lines
109-193), as a pure function of the environment and the raw
`X-PAYMENT` header (`none` when the header is absent).  Returns the
response and the ordered list of external calls performed.  The settle
call's outcome (failure result or thrown error, lines 179-185) is only
logged in the source and therefore does not appear in the response. -/
def requestMint (env : Env) (paymentHeaderBase64 : Option String) :
    HttpResponse × List Call :=
  match paymentHeaderBase64 with
  | none => (⟨402, challengeBody⟩, [])
  | some _ =>
    match env.decodeHeader with
    | .error msg => (⟨400, headerFormatBody msg⟩, [])
    | .ok ph =>
      if basicValidationFails ph then
        (⟨400, headerFormatBody "Invalid or incomplete payment header content."⟩, [])
      else
        match env.verifyCall with
        | .error _ => (⟨500, verifyTransportFailureBody⟩, [.verify])
        | .ok vr =>
          if !vr.isValid then
            (⟨402, verifyFailedBody vr.invalidReason⟩, [.verify])
          else
            match env.mintCall with
            | .error msg => (⟨500, mintFailedBody msg⟩, [.verify, .mint])
            | .ok mintTxHash =>
              (⟨200, successBody mintTxHash⟩, [.verify, .mint, .settle])

/-- A well-formed decoded header used for concrete test inputs. -/
def goodHeader : XPaymentHeader :=
  { x402Version := 1
    scheme := SCHEME
    networkId := NETWORK_ID
    payload :=
      { signature := "0xsig"
        authorization :=
          { from_ := "0xPayerAddress"
            to_ := PAYMENT_RECIPIENT_ADDRESS
            value := "50000"
            validAfter := "0"
            validBefore := "9999999999"
            nonce := "0x01"
            version := "1" } }
    resource := "http://localhost:4023/request-mint" }

/-- Environment in which every external step succeeds. -/
def envAllOk : Env :=
  { decodeHeader := .ok goodHeader
    verifyCall := .ok ⟨true, none⟩
    mintCall := .ok "0xmintTxHash"
    settleCall := .ok ⟨true, none, some "0xsettleTxHash"⟩ }

/-- Environment in which verification answers invalid. -/
def envInvalid : Env :=
  { envAllOk with verifyCall := .ok ⟨false, some "Insufficient amount"⟩ }

/-- Environment in which the mint transaction submission throws. -/
def envMintFail : Env :=
  { envAllOk with mintCall := .error "insufficient funds for gas" }

/-- Environment in which the header does not decode. -/
def envDecodeFail : Env :=
  { envAllOk with decodeHeader := .error "Unexpected token in JSON" }

/-- A decoded header with a wrong scheme identifier. -/
def wrongSchemeHeader : XPaymentHeader := { goodHeader with scheme := "other" }

/-- Environment in which the header decodes but fails basic validation. -/
def envWrongScheme : Env := { envAllOk with decodeHeader := .ok wrongSchemeHeader }

/-- Environment in which the facilitator `/verify` call throws. -/
def envVerifyThrow : Env := { envAllOk with verifyCall := .error "ECONNREFUSED" }

/-! ## The VRFNFT contract (VRFNFT.sol)

The contract's storage is embedded as a record of total maps (Solidity
mappings with their zero default values).  A reverting function is an
`Except.error` carrying the `require` message; EVM revert semantics
discard all writes, so the error case returns no state.  The external
OpenZeppelin `Base64.encode` library is a parameter `enc` of the
fulfillment function. -/

/-- `address(0)`, the zero value of Solidity's `address`. -/
def zeroAddress : Address := "0x0000000000000000000000000000000000000000"

/-- `RequestStatus` struct (VRFNFT.sol lines 54-58).  The Solidity field
`exists` is a Lean keyword and is embedded as `exists_`. -/
structure RequestStatus where
  fulfilled : Bool
  exists_ : Bool
  randomWords : List Nat
  deriving DecidableEq

/-- `s_characterImages` (VRFNFT.sol lines 38-43). -/
def s_characterImages : List String :=
  ["https://ipfs.io/ipfs/QmTgqnhFBMkfT9s8PHKcdXBn1f5bG3Q5hmBaR4U6hoTvb1?filename=Chainlink_Elf.png",
   "https://ipfs.io/ipfs/QmZGQA92ri1jfzSu61JRaNQXYg1bLuM7p8YT83DzFA2KLH?filename=Chainlink_Knight.png",
   "https://ipfs.io/ipfs/QmW1toapYs7M29rzLXTENn3pbvwe8ioikX1PwzACzjfdHP?filename=Chainlink_Orc.png",
   "https://ipfs.io/ipfs/QmPMwQtFpEdKrUjpQJfoTeZS1aVSeuJT6Mof7uV29AcUpF?filename=Chainlink_Witch.png"]

/-- `s_characterNames` (VRFNFT.sol lines 44-49). -/
def s_characterNames : List String :=
  ["Chainlink Elf", "Chainlink Knight", "Chainlink Orc", "Chainlink Witch"]

/-- Contract storage: the VRF request ledger, the recipient correlation
map, the sequential token counter, the per-token character choice, and
the ERC721 ownership and token-URI storage written by `_safeMint` /
`_setTokenURI`. -/
structure VRFNFTState where
  s_requests : Nat → RequestStatus
  s_requestIdToRecipient : Nat → Address
  tokenIdCounter : Nat
  s_tokenIdToCharacterIndex : Nat → Nat
  owners : Nat → Option Address
  tokenURIs : Nat → String

/-- The metadata JSON string assembled in `fulfillRandomWords`
(VRFNFT.sol lines 156-174), before Base64 encoding. -/
def characterMetadataJson (characterName : String) (tokenId : Nat)
    (characterImageURI : String) : String :=
  "\x7b" ++ "\"name\": \"" ++ characterName ++ " #" ++ toString tokenId ++ "\"," ++
  "\"description\": \"A randomly generated VRFNFT character.\"," ++
  "\"image\": \"" ++ characterImageURI ++ "\"," ++
  "\"attributes\": [" ++ "\x7b" ++ "\"trait_type\": \"Character\", " ++
  "\"value\": \"" ++ characterName ++ "\"" ++ "\x7d" ++ "]" ++ "\x7d"

/-- `fulfillRandomWords` (VRFNFT.sol lines 128-183): the asynchronous
fulfillment callback.  `enc` stands for the external `Base64.encode`.
Each `require` failure is an `Except.error` with the source's message;
a revert discards every storage write. -/
def fulfillRandomWords (enc : String → String) (s : VRFNFTState)
    (requestId : Nat) (randomWords : List Nat) :
    Except String VRFNFTState :=
  if !(s.s_requests requestId).exists_ then .error "Request not found"
  else if (s.s_requests requestId).fulfilled then .error "Request already fulfilled"
  else
    match randomWords with
    | [] => .error "No random words received"
    | w0 :: _ =>
      let owner := s.s_requestIdToRecipient requestId
      if owner == zeroAddress then .error "Recipient address cannot be zero"
      else
        let characterIndex := w0 % s_characterNames.length
        let tokenId := s.tokenIdCounter
        let characterName := s_characterNames.getD characterIndex ""
        let characterImageURI := s_characterImages.getD characterIndex ""
        let finalTokenURI := "data:application/json;base64," ++
          enc (characterMetadataJson characterName tokenId characterImageURI)
        .ok { s_requests := fun x =>
                if x = requestId then ⟨true, true, randomWords⟩ else s.s_requests x
              s_requestIdToRecipient := fun x =>
                if x = requestId then zeroAddress else s.s_requestIdToRecipient x
              tokenIdCounter := s.tokenIdCounter + 1
              s_tokenIdToCharacterIndex := fun x =>
                if x = tokenId then characterIndex else s.s_tokenIdToCharacterIndex x
              owners := fun x =>
                if x = tokenId then some owner else s.owners x
              tokenURIs := fun x =>
                if x = tokenId then finalTokenURI else s.tokenURIs x }

/-- The observable effect of one delivery of the fulfillment callback:
a revert leaves the contract storage exactly as it was. -/
def applyFulfillment (enc : String → String) (s : VRFNFTState)
    (requestId : Nat) (randomWords : List Nat) : VRFNFTState :=
  match fulfillRandomWords enc s requestId randomWords with
  | .ok s' => s'
  | .error _ => s

/-- Fresh contract storage: every mapping at its zero value. -/
def initialState : VRFNFTState :=
  { s_requests := fun _ => ⟨false, false, []⟩
    s_requestIdToRecipient := fun _ => zeroAddress
    tokenIdCounter := 0
    s_tokenIdToCharacterIndex := fun _ => 0
    owners := fun _ => none
    tokenURIs := fun _ => "" }

/-- Storage after `requestNFT` recorded request 1 for a recipient:
`s_requests[1] = {fulfilled: false, exists: true, randomWords: []}` and
a nonzero recipient (VRFNFT.sol lines 114-115). -/
def pendingState : VRFNFTState :=
  { initialState with
    s_requests := fun x => if x = 1 then ⟨false, true, []⟩ else ⟨false, false, []⟩
    s_requestIdToRecipient := fun x =>
      if x = 1 then "0xPayerAddress" else zeroAddress }

/-- Storage in which request 1 has already been fulfilled. -/
def fulfilledState : VRFNFTState :=
  { initialState with
    s_requests := fun x => if x = 1 then ⟨true, true, [7]⟩ else ⟨false, false, []⟩ }

/-! ## Branch lemmas for the request handler -/

/-- No payment header: 402 challenge, no external calls. -/
theorem requestMint_noHeader (env : Env) :
    requestMint env none = (⟨402, challengeBody⟩, []) := rfl

/-- Header decode throws: 400, no external calls. -/
theorem requestMint_decodeError (env : Env) (s m : String)
    (hd : env.decodeHeader = .error m) :
    requestMint env (some s) = (⟨400, headerFormatBody m⟩, []) := by
  simp only [requestMint, hd]

/-- Header decodes but fails basic validation: 400, no external calls. -/
theorem requestMint_badContent (env : Env) (s : String) (ph : XPaymentHeader)
    (hd : env.decodeHeader = .ok ph) (hb : basicValidationFails ph = true) :
    requestMint env (some s) =
      (⟨400, headerFormatBody "Invalid or incomplete payment header content."⟩, []) := by
  simp only [requestMint, hd, hb, if_true]

/-- Facilitator `/verify` call throws: 500, only the verify call made. -/
theorem requestMint_verifyThrow (env : Env) (s m : String) (ph : XPaymentHeader)
    (hd : env.decodeHeader = .ok ph) (hb : basicValidationFails ph = false)
    (hv : env.verifyCall = .error m) :
    requestMint env (some s) = (⟨500, verifyTransportFailureBody⟩, [.verify]) := by
  simp only [requestMint, hd, hb, hv, Bool.false_eq_true, if_false]

/-- Verification returned invalid: 402 with the reason, only verify made. -/
theorem requestMint_invalid (env : Env) (s : String) (ph : XPaymentHeader)
    (vr : VerificationResult)
    (hd : env.decodeHeader = .ok ph) (hb : basicValidationFails ph = false)
    (hv : env.verifyCall = .ok vr) (hi : vr.isValid = false) :
    requestMint env (some s) = (⟨402, verifyFailedBody vr.invalidReason⟩, [.verify]) := by
  simp only [requestMint, hd, hb, hv, hi, Bool.false_eq_true, if_false,
    Bool.not_false, if_true]

/-- Verification valid but the mint submission throws: 500, verify and
mint made, settle not. -/
theorem requestMint_mintThrow (env : Env) (s m : String) (ph : XPaymentHeader)
    (vr : VerificationResult)
    (hd : env.decodeHeader = .ok ph) (hb : basicValidationFails ph = false)
    (hv : env.verifyCall = .ok vr) (hi : vr.isValid = true)
    (hm : env.mintCall = .error m) :
    requestMint env (some s) = (⟨500, mintFailedBody m⟩, [.verify, .mint]) := by
  simp only [requestMint, hd, hb, hv, hi, hm, Bool.false_eq_true, if_false,
    Bool.not_true]

/-- Verification valid and mint submitted: 200 success body, all three
calls made, and the response is the same whatever `env.settleCall`
holds. -/
theorem requestMint_success (env : Env) (s txh : String) (ph : XPaymentHeader)
    (vr : VerificationResult)
    (hd : env.decodeHeader = .ok ph) (hb : basicValidationFails ph = false)
    (hv : env.verifyCall = .ok vr) (hi : vr.isValid = true)
    (hm : env.mintCall = .ok txh) :
    requestMint env (some s) =
      (⟨200, successBody txh⟩, [.verify, .mint, .settle]) := by
  simp only [requestMint, hd, hb, hv, hi, hm, Bool.false_eq_true, if_false,
    Bool.not_true]

/-- Inversion: if the settle call appears in the trace, the request
reached the success branch — the header was present and well formed,
the verifier was called and answered valid, the mint was submitted,
and the trace lists verify and mint before settle. -/
theorem requestMint_settle_inv (env : Env) (hdr : Option String)
    (h : Call.settle ∈ (requestMint env hdr).2) :
    ∃ s ph vr txh, hdr = some s ∧ env.decodeHeader = .ok ph ∧
      basicValidationFails ph = false ∧ env.verifyCall = .ok vr ∧
      vr.isValid = true ∧ env.mintCall = .ok txh ∧
      requestMint env hdr = (⟨200, successBody txh⟩, [.verify, .mint, .settle]) := by
  cases hdr with
  | none => rw [requestMint_noHeader] at h; simp at h
  | some s =>
    cases hd : env.decodeHeader with
    | error m => rw [requestMint_decodeError env s m hd] at h; simp at h
    | ok ph =>
      cases hb : basicValidationFails ph with
      | true => rw [requestMint_badContent env s ph hd hb] at h; simp at h
      | false =>
        cases hv : env.verifyCall with
        | error m => rw [requestMint_verifyThrow env s m ph hd hb hv] at h; simp at h
        | ok vr =>
          cases hi : vr.isValid with
          | false =>
            rw [requestMint_invalid env s ph vr hd hb hv hi] at h
            simp at h
          | true =>
            cases hm : env.mintCall with
            | error m =>
              rw [requestMint_mintThrow env s m ph vr hd hb hv hi hm] at h
              simp at h
            | ok txh =>
              exact ⟨s, ph, vr, txh, rfl, rfl, hb, rfl, hi, rfl,
                requestMint_success env s txh ph vr hd hb hv hi hm⟩

/-! ## Lemmas about the fulfillment callback -/

/-- A successful fulfillment records the request as existing and
fulfilled (VRFNFT.sol lines 133-134, with `exists` left `true`). -/
theorem fulfillRandomWords_ok_fulfilled (enc : String → String)
    (s s' : VRFNFTState) (requestId : Nat) (randomWords : List Nat)
    (h : fulfillRandomWords enc s requestId randomWords = .ok s') :
    (s'.s_requests requestId).exists_ = true ∧
      (s'.s_requests requestId).fulfilled = true := by
  cases h1 : (s.s_requests requestId).exists_ with
  | false => simp [fulfillRandomWords, h1] at h
  | true =>
    cases h2 : (s.s_requests requestId).fulfilled with
    | true => simp [fulfillRandomWords, h1, h2] at h
    | false =>
      cases randomWords with
      | nil => simp [fulfillRandomWords, h1, h2] at h
      | cons w rest =>
        cases h3 : s.s_requestIdToRecipient requestId == zeroAddress with
        | true => simp [fulfillRandomWords, h1, h2, h3] at h
        | false =>
          simp only [fulfillRandomWords, h1, h2, h3, Bool.not_true,
            Bool.false_eq_true, if_false, if_true, Except.ok.injEq] at h
          subst h
          simp

/-! ## Claims about the fulfillment callback -/

/-- C4 counterexample: a fulfillment callback for an unknown requestId is
not a non-throwing no-op — on fresh storage, where request 1 was never
recorded, `fulfillRandomWords` raises "Request not found" rather than
returning successfully. -/
theorem unknown_request_fulfillment_throws_cex :
    fulfillRandomWords id initialState 1 [5] = .error "Request not found" ∧
    (fulfillRandomWords id initialState 1 [5]).isOk = false :=
  ⟨rfl, rfl⟩

/-- C4 (amended): for every fulfillment callback whose requestId has no
recorded pending request, the handler raises "Request not found" (the
`require` at VRFNFT.sol line 129 reverts); the revert discards all
writes, so no state is modified. -/
theorem unknown_request_fulfillment_reverts (enc : String → String)
    (s : VRFNFTState) (requestId : Nat) (randomWords : List Nat)
    (h : (s.s_requests requestId).exists_ = false) :
    fulfillRandomWords enc s requestId randomWords = .error "Request not found" ∧
    applyFulfillment enc s requestId randomWords = s := by
  have h1 : fulfillRandomWords enc s requestId randomWords =
      .error "Request not found" := by
    simp [fulfillRandomWords, h]
  exact ⟨h1, by simp [applyFulfillment, h1]⟩

/-- Witness for `unknown_request_fulfillment_reverts` on fresh storage. -/
theorem unknown_request_fulfillment_reverts_witness :
    fulfillRandomWords id initialState 2 [9] = .error "Request not found" ∧
    applyFulfillment id initialState 2 [9] = initialState :=
  unknown_request_fulfillment_reverts id initialState 2 [9] rfl

/-- C5: the fulfillment handler is idempotent — once a request is
recorded as fulfilled, a duplicate callback is not reapplied (the
`require` at VRFNFT.sol line 130 rejects it, leaving storage
untouched), so delivering the callback twice produces the same
observable storage as delivering it once. -/
theorem onFulfillment_idempotent (enc : String → String) (s : VRFNFTState)
    (requestId : Nat) (randomWords : List Nat) :
    ((s.s_requests requestId).exists_ = true →
      (s.s_requests requestId).fulfilled = true →
      fulfillRandomWords enc s requestId randomWords =
        .error "Request already fulfilled") ∧
    applyFulfillment enc (applyFulfillment enc s requestId randomWords)
        requestId randomWords =
      applyFulfillment enc s requestId randomWords := by
  constructor
  · intro he hf
    simp [fulfillRandomWords, he, hf]
  · cases hf : fulfillRandomWords enc s requestId randomWords with
    | error e => simp [applyFulfillment, hf]
    | ok s' =>
      obtain ⟨he2, hf2⟩ :=
        fulfillRandomWords_ok_fulfilled enc s s' requestId randomWords hf
      have herr : fulfillRandomWords enc s' requestId randomWords =
          .error "Request already fulfilled" := by
        simp [fulfillRandomWords, he2, hf2]
      simp [applyFulfillment, hf, herr]

/-- Witness for `onFulfillment_idempotent` at a concrete fulfilled
request. -/
theorem onFulfillment_idempotent_witness :
    fulfillRandomWords id fulfilledState 1 [7] =
      .error "Request already fulfilled" ∧
    applyFulfillment id (applyFulfillment id fulfilledState 1 [7]) 1 [7] =
      applyFulfillment id fulfilledState 1 [7] :=
  ⟨(onFulfillment_idempotent id fulfilledState 1 [7]).1 rfl rfl,
   (onFulfillment_idempotent id fulfilledState 1 [7]).2⟩

/-- C8: on every successful fulfillment the character selected for the
newly minted token is the first delivered random word reduced modulo
the number of characters — and that count is 4; no further randomness
is introduced locally (VRFNFT.sol line 140). -/
theorem character_index_modulo (enc : String → String) (s : VRFNFTState)
    (requestId : Nat) (w : Nat) (rest : List Nat) (s' : VRFNFTState)
    (h : fulfillRandomWords enc s requestId (w :: rest) = .ok s') :
    s_characterNames.length = 4 ∧
    s'.s_tokenIdToCharacterIndex s.tokenIdCounter = w % s_characterNames.length := by
  refine ⟨rfl, ?_⟩
  cases h1 : (s.s_requests requestId).exists_ with
  | false => simp [fulfillRandomWords, h1] at h
  | true =>
    cases h2 : (s.s_requests requestId).fulfilled with
    | true => simp [fulfillRandomWords, h1, h2] at h
    | false =>
      cases h3 : s.s_requestIdToRecipient requestId == zeroAddress with
      | true => simp [fulfillRandomWords, h1, h2, h3] at h
      | false =>
        simp only [fulfillRandomWords, h1, h2, h3, Bool.not_true,
          Bool.false_eq_true, if_false, if_true, Except.ok.injEq] at h
        subst h
        simp

/-- Witness for `character_index_modulo` at a concrete pending request. -/
theorem character_index_modulo_witness :
    s_characterNames.length = 4 ∧
    (applyFulfillment id pendingState 1 [7]).s_tokenIdToCharacterIndex
        pendingState.tokenIdCounter = 7 % s_characterNames.length :=
  character_index_modulo id pendingState 1 7 []
    (applyFulfillment id pendingState 1 [7]) rfl

/-! ## Claims about the request handler -/

/-- C1 counterexample: on a fully successful request (header well formed,
verification valid, mint submitted, settlement succeeding) the 200
body has exactly the keys `message` and `nftMintTxHash` — there is no
`settlement` field, so the response does not carry the settlement
receipt the claim requires. -/
theorem success_body_omits_settlement_cex :
    (requestMint envAllOk (some "hdr")).1.status = 200 ∧
    ((requestMint envAllOk (some "hdr")).1.body).keys =
      ["message", "nftMintTxHash"] ∧
    "settlement" ∉ ((requestMint envAllOk (some "hdr")).1.body).keys :=
  ⟨rfl, rfl, by decide⟩

/-- C1 (amended): when verification succeeds and the mint transaction is
submitted, the Gate responds 200 with `{ message, nftMintTxHash }` —
the body carries the trigger's transaction hash, and the settlement
receipt is not part of it (its outcome is only logged,
vrf-resource-server.ts lines 179-192). -/
theorem success_response_message_and_txhash (env : Env) (s txh : String)
    (ph : XPaymentHeader) (vr : VerificationResult)
    (hd : env.decodeHeader = .ok ph) (hb : basicValidationFails ph = false)
    (hv : env.verifyCall = .ok vr) (hi : vr.isValid = true)
    (hm : env.mintCall = .ok txh) :
    (requestMint env (some s)).1 = ⟨200, successBody txh⟩ ∧
    ((requestMint env (some s)).1.body).keys = ["message", "nftMintTxHash"] := by
  have h := requestMint_success env s txh ph vr hd hb hv hi hm
  rw [h]
  exact ⟨rfl, rfl⟩

/-- Witness for `success_response_message_and_txhash`. -/
theorem success_response_message_and_txhash_witness :
    (requestMint envAllOk (some "hdr")).1 = ⟨200, successBody "0xmintTxHash"⟩ ∧
    ((requestMint envAllOk (some "hdr")).1.body).keys =
      ["message", "nftMintTxHash"] :=
  success_response_message_and_txhash envAllOk "hdr" "0xmintTxHash"
    goodHeader ⟨true, none⟩ rfl rfl rfl rfl rfl

/-- C2: the settler is never invoked before the verifier has returned
valid for the same request — whenever the settle call appears in the
trace, the trace is exactly [verify, mint, settle] (so verify precedes
settle) and the verifier answered valid; and when verification returns
invalid, the Gate responds 402 and the settle call is absent from the
trace. -/
theorem settler_only_after_verifier_valid (env : Env) (hdr : Option String) :
    (Call.settle ∈ (requestMint env hdr).2 →
      ∃ vr, env.verifyCall = .ok vr ∧ vr.isValid = true ∧
        (requestMint env hdr).2 = [.verify, .mint, .settle]) ∧
    (∀ vr, env.verifyCall = .ok vr → vr.isValid = false →
      Call.verify ∈ (requestMint env hdr).2 →
      (requestMint env hdr).1.status = 402 ∧
        Call.settle ∉ (requestMint env hdr).2) := by
  constructor
  · intro h
    obtain ⟨s, ph, vr, txh, _, _, _, hv, hi, _, heq⟩ :=
      requestMint_settle_inv env hdr h
    exact ⟨vr, hv, hi, by rw [heq]⟩
  · intro vr hv hi hverify
    cases hdr with
    | none => rw [requestMint_noHeader] at hverify; simp at hverify
    | some s =>
      cases hd : env.decodeHeader with
      | error m =>
        rw [requestMint_decodeError env s m hd] at hverify; simp at hverify
      | ok ph =>
        cases hb : basicValidationFails ph with
        | true =>
          rw [requestMint_badContent env s ph hd hb] at hverify; simp at hverify
        | false =>
          rw [requestMint_invalid env s ph vr hd hb hv hi]
          exact ⟨rfl, by simp⟩

/-- Witness for `settler_only_after_verifier_valid`: the success
environment exercises the first part, the invalid-verification
environment the second. -/
theorem settler_only_after_verifier_valid_witness :
    (∃ vr, envAllOk.verifyCall = .ok vr ∧ vr.isValid = true ∧
      (requestMint envAllOk (some "hdr")).2 = [.verify, .mint, .settle]) ∧
    ((requestMint envInvalid (some "hdr")).1.status = 402 ∧
      Call.settle ∉ (requestMint envInvalid (some "hdr")).2) :=
  ⟨(settler_only_after_verifier_valid envAllOk (some "hdr")).1 (by decide),
   (settler_only_after_verifier_valid envInvalid (some "hdr")).2
     ⟨false, some "Insufficient amount"⟩ rfl rfl (by decide)⟩

/-- C3: if the mint submission throws once it is attempted, the Gate
responds 500 and the settle call never appears in the trace — the
caller is not charged for an action that never started. -/
theorem trigger_failure_no_settlement (env : Env) (hdr : Option String)
    (m : String) (hm : env.mintCall = .error m)
    (hmint : Call.mint ∈ (requestMint env hdr).2) :
    (requestMint env hdr).1.status = 500 ∧
    Call.settle ∉ (requestMint env hdr).2 := by
  cases hdr with
  | none => rw [requestMint_noHeader] at hmint; simp at hmint
  | some s =>
    cases hd : env.decodeHeader with
    | error m2 =>
      rw [requestMint_decodeError env s m2 hd] at hmint; simp at hmint
    | ok ph =>
      cases hb : basicValidationFails ph with
      | true =>
        rw [requestMint_badContent env s ph hd hb] at hmint; simp at hmint
      | false =>
        cases hv : env.verifyCall with
        | error m2 =>
          rw [requestMint_verifyThrow env s m2 ph hd hb hv] at hmint
          simp at hmint
        | ok vr =>
          cases hi : vr.isValid with
          | false =>
            rw [requestMint_invalid env s ph vr hd hb hv hi] at hmint
            simp at hmint
          | true =>
            rw [requestMint_mintThrow env s m ph vr hd hb hv hi hm]
            exact ⟨rfl, by simp⟩

/-- Witness for `trigger_failure_no_settlement`. -/
theorem trigger_failure_no_settlement_witness :
    (requestMint envMintFail (some "hdr")).1.status = 500 ∧
    Call.settle ∉ (requestMint envMintFail (some "hdr")).2 :=
  trigger_failure_no_settlement envMintFail (some "hdr")
    "insufficient funds for gas" rfl (by decide)

/-- C6: a request without the X-PAYMENT header gets a 402 whose body is
the constant challenge `{ paymentDetails: paymentDetailsRequired,
error: "Payment required" }` — identical for every environment, hence
unchanged from request to request — and no external call is made. -/
theorem missing_header_402_terms (env : Env) :
    requestMint env none = (⟨402, challengeBody⟩, []) ∧
    challengeBody = .obj [("paymentDetails", paymentDetailsRequired.toJson),
                          ("error", .str "Payment required")] :=
  ⟨rfl, rfl⟩

/-- C7: a present but malformed X-PAYMENT header — a decode/parse
failure, or a decoded envelope with wrong scheme, wrong network id, or
missing payer — is rejected immediately with 400 (distinct from 402)
and the empty call trace: the verifier is not called, the action is
not triggered, and nothing is settled. -/
theorem malformed_header_400_no_calls (env : Env) (s : String) :
    (∀ m, env.decodeHeader = .error m →
      requestMint env (some s) = (⟨400, headerFormatBody m⟩, [])) ∧
    (∀ ph, env.decodeHeader = .ok ph → basicValidationFails ph = true →
      requestMint env (some s) =
        (⟨400, headerFormatBody "Invalid or incomplete payment header content."⟩, [])) :=
  ⟨fun m hd => requestMint_decodeError env s m hd,
   fun ph hd hb => requestMint_badContent env s ph hd hb⟩

/-- Witness for `malformed_header_400_no_calls`: a decode failure and a
wrong-scheme envelope. -/
theorem malformed_header_400_no_calls_witness :
    requestMint envDecodeFail (some "hdr") =
      (⟨400, headerFormatBody "Unexpected token in JSON"⟩, []) ∧
    requestMint envWrongScheme (some "hdr") =
      (⟨400, headerFormatBody "Invalid or incomplete payment header content."⟩, []) :=
  ⟨(malformed_header_400_no_calls envDecodeFail "hdr").1
     "Unexpected token in JSON" rfl,
   (malformed_header_400_no_calls envWrongScheme "hdr").2
     wrongSchemeHeader rfl rfl⟩

/-- C9: once verification succeeded and the mint transaction was
submitted, the Gate responds 200 with the success body, and replacing
the settle call's outcome by any other (a failure receipt or a thrown
call alike) changes nothing in the response — the settlement outcome is
only logged. -/
theorem settlement_outcome_does_not_affect_response (env : Env)
    (s txh : String) (ph : XPaymentHeader) (vr : VerificationResult)
    (hd : env.decodeHeader = .ok ph) (hb : basicValidationFails ph = false)
    (hv : env.verifyCall = .ok vr) (hi : vr.isValid = true)
    (hm : env.mintCall = .ok txh) :
    (requestMint env (some s)).1 = ⟨200, successBody txh⟩ ∧
    (∀ res : Except String SettlementResult,
      requestMint { env with settleCall := res } (some s) =
        requestMint env (some s)) := by
  have h1 := requestMint_success env s txh ph vr hd hb hv hi hm
  constructor
  · rw [h1]
  · intro res
    have h2 := requestMint_success { env with settleCall := res } s txh ph vr
      hd hb hv hi hm
    rw [h1, h2]

/-- Witness for `settlement_outcome_does_not_affect_response`; the
instantiated outcome is a thrown settle call. -/
theorem settlement_outcome_does_not_affect_response_witness :
    (requestMint envAllOk (some "hdr")).1 = ⟨200, successBody "0xmintTxHash"⟩ ∧
    requestMint { envAllOk with settleCall := .error "ECONNREFUSED" } (some "hdr") =
      requestMint envAllOk (some "hdr") :=
  ⟨(settlement_outcome_does_not_affect_response envAllOk "hdr" "0xmintTxHash"
      goodHeader ⟨true, none⟩ rfl rfl rfl rfl rfl).1,
   (settlement_outcome_does_not_affect_response envAllOk "hdr" "0xmintTxHash"
      goodHeader ⟨true, none⟩ rfl rfl rfl rfl rfl).2 (.error "ECONNREFUSED")⟩

/-- C10: if the facilitator `/verify` call itself throws, the Gate
responds 500 — not 402 — with body
`{ error: "Facilitator verification call failed." }`, and neither the
mint nor the settle call is made. -/
theorem verify_transport_failure_500 (env : Env) (s m : String)
    (ph : XPaymentHeader)
    (hd : env.decodeHeader = .ok ph) (hb : basicValidationFails ph = false)
    (hv : env.verifyCall = .error m) :
    requestMint env (some s) = (⟨500, verifyTransportFailureBody⟩, [.verify]) ∧
    Call.mint ∉ (requestMint env (some s)).2 ∧
    Call.settle ∉ (requestMint env (some s)).2 := by
  have h := requestMint_verifyThrow env s m ph hd hb hv
  refine ⟨h, ?_, ?_⟩ <;> rw [h] <;> decide

/-- Witness for `verify_transport_failure_500`. -/
theorem verify_transport_failure_500_witness :
    requestMint envVerifyThrow (some "hdr") =
      (⟨500, verifyTransportFailureBody⟩, [.verify]) ∧
    Call.mint ∉ (requestMint envVerifyThrow (some "hdr")).2 ∧
    Call.settle ∉ (requestMint envVerifyThrow (some "hdr")).2 :=
  verify_transport_failure_500 envVerifyThrow "hdr" "ECONNREFUSED"
    goodHeader rfl rfl rfl

end X402
